import Mathlib

/-!
Shallow embedding of the docker-worker `TaskListener`
(src/workers/docker-worker/src/task_listener.js).

The listener owns a registry of running tasks, capacity counters and a
poll loop.  Every externally visible action (log lines, monitor counts,
device releases, handler calls, the garbage-collector sweep, the queue
claim, host shutdown) is recorded as an `Effect` in an ordered trace, so
each JS method becomes a pure function from the listener state (plus the
results of its external probes) to a new state and a trace of effects.
Times are passed explicitly as `Nat` clock readings; JS arithmetic on
them is carried out in `Int`.
-/

/-- One externally visible action performed by the listener. -/
inductive Effect where
  /-- `this.runtime.log(msg, ...)` -/
  | log (msg : String)
  /-- `debug(msg)` -/
  | debugLog (msg : String)
  /-- `monitor.measure(name, value)` -/
  | measure (name : String) (value : Int)
  /-- `monitor.count(name, value)` (value defaults to 1 in JS) -/
  | count (name : String) (value : Int)
  /-- `device.release()` on the leased device with this id -/
  | release (deviceId : String)
  /-- `handler.cancel(reason)` on the handler identified by (taskId, runId) -/
  | handlerCancel (taskId : String) (runId : Nat) (reason : String)
  /-- `handler.abort(reason)` on the handler identified by (taskId, runId) -/
  | handlerAbort (taskId : String) (runId : Nat) (reason : String)
  /-- `this.runtime.gc.sweep(full)` -/
  | gcSweep (full : Bool)
  /-- `exceedsDiskspaceThreshold(..., availableCapacity, ...)` probe -/
  | diskCheck (availableCapacity : Nat)
  /-- `this.taskQueue.claimWork(n)` -/
  | claimWork (n : Nat)
  /-- `this.runtime.volumeCache.purgeCaches()` -/
  | purgeCaches
  /-- fire-and-forget launch of `this.runTask(claim)` -/
  | spawnRunTask (taskId : String) (runId : Nat)
  /-- `this.runtime.logEvent({eventType, ...})` -/
  | logEvent (eventType : String)
  /-- the `await taskHandler.start()` call for this task -/
  | startAttempt (taskId : String) (runId : Nat)
  /-- `this.runtime.shutdownManager.onIdle()` -/
  | onIdle
  /-- `this.runtime.shutdownManager.onWorking()` -/
  | onWorking
  /-- `this.host.shutdown()` -/
  | hostShutdown
deriving Repr, DecidableEq

/-- One entry of `this.runningTasks`: per-in-flight-task state built by
`runTask`.  `devices` is the `runningState.devices` map as a list of
(kind, device id) pairs; `handlerTaskId` / `handlerRunId` mirror
`state.handler.status.taskId` and `state.handler.runId`, which
`cancelTask` matches against. -/
structure RunningState where
  startTime : Nat
  devices : List (String × String)
  taskId : String
  runId : Nat
  handlerTaskId : String
  handlerRunId : Nat
deriving Repr, DecidableEq

/-- The mutable fields of the `TaskListener` object that the modelled
methods read or write.  `capacity` is `this.runtime.capacity` (the
configured capacity, which the shutdown paths set to 0). -/
structure ListenerState where
  runningTasks : List RunningState
  lastKnownCapacity : Nat
  totalRunTime : Int
  lastTaskEvent : Nat
  capacity : Nat
  paused : Bool
deriving Repr, DecidableEq

/-- `cleanupRunningState(state)`: release every device held by the
state; a missing (`undefined`) state is ignored. -/
def cleanupRunningState (state : Option RunningState) : List Effect :=
  match state with
  | none => []
  | some st => st.devices.map (fun d => Effect.release d.2)

/-- `recordCapacity()`: emit the capacity counters (computed from the
current, pre-mutation state) and refresh `lastTaskEvent`. -/
def recordCapacity (s : ListenerState) (now : Nat) :
    ListenerState × List Effect :=
  ({ s with lastTaskEvent := now },
   [Effect.measure "capacity.duration.lastTaskEvent" ((now : Int) - (s.lastTaskEvent : Int)),
    Effect.count "capacity.idle" (s.lastKnownCapacity : Int),
    Effect.count "capacity.runningTasks" (s.runningTasks.length : Int),
    Effect.count "capacity.total" ((s.lastKnownCapacity : Int) + (s.runningTasks.length : Int))])

/-- `addRunningTask(runningState)`: `recordCapacity` first, then push the
state onto `runningTasks`. -/
def addRunningTask (s : ListenerState) (runningState : RunningState) (now : Nat) :
    ListenerState × List Effect :=
  let r := recordCapacity s now
  ({ r.1 with runningTasks := r.1.runningTasks ++ [runningState] }, r.2)

/-- The `findIndex` predicate of `removeRunningTask`: match on the
state's own `taskId` and `runId`. -/
def removeMatch (runningState : RunningState) (runningTask : RunningState) : Bool :=
  runningTask.taskId == runningState.taskId && runningTask.runId == runningState.runId

/-- `removeRunningTask(runningState)`: locate the entry by (taskId,
runId); when absent, warn and still release the passed-in leases; when
present, `recordCapacity`, release leases, accumulate `totalRunTime`,
splice the entry out and bump `lastKnownCapacity`. -/
def removeRunningTask (s : ListenerState) (runningState : RunningState) (now : Nat) :
    ListenerState × List Effect :=
  match s.runningTasks.findIdx? (removeMatch runningState) with
  | none =>
    (s, Effect.log "[warning] running task removal error" ::
        cleanupRunningState (some runningState))
  | some taskIndex =>
    let r := recordCapacity s now
    ({ r.1 with
        runningTasks := r.1.runningTasks.eraseIdx taskIndex,
        totalRunTime := r.1.totalRunTime + ((now : Int) - (runningState.startTime : Int)),
        lastKnownCapacity := r.1.lastKnownCapacity + 1 },
     r.2 ++ cleanupRunningState (some runningState))

/-- The `find` predicate of `cancelTask`: match on the handler's
`status.taskId` and `runId`. -/
def cancelMatch (taskId : String) (runId : Nat) (st : RunningState) : Bool :=
  st.handlerTaskId == taskId && st.handlerRunId == runId

/-- `cancelTask(message)`.  `runs` is
`message.payload.status.runs` projected to each run's `reasonResolved`;
`runId` and `taskId` come from the message payload.  Indexing past the
end of `runs` is the JS `TypeError` on
`undefined.reasonResolved`, modelled as `Except.error`. -/
def cancelTask (s : ListenerState) (runId : Nat) (runs : List String)
    (taskId : String) : Except String (ListenerState × List Effect) :=
  match runs[runId]? with
  | none => Except.error "TypeError: cannot read reasonResolved of undefined"
  | some reason =>
    if reason ≠ "canceled" then Except.ok (s, [])
    else
      match s.runningTasks.find? (cancelMatch taskId runId) with
      | none => Except.ok (s, [Effect.debugLog "task not found to cancel"])
      | some st =>
        Except.ok (s,
          Effect.log "cancelling task" ::
          Effect.handlerCancel taskId runId reason ::
          cleanupRunningState (some st))

/-- The device capacity `availableCapacity` ends up using: the probe's
value, or 0 when the probe threw. -/
def deviceCapacityOf (probe : Except String Nat) : Nat :=
  match probe with
  | Except.ok d => d
  | Except.error _ => 0

/-- `availableCapacity()`.  `probe` is the result of
`this.deviceManager.getAvailableCapacity()` (value or thrown error).
Returns the new state, the trace, and the returned `hostCapacity`. -/
def availableCapacity (s : ListenerState) (probe : Except String Nat) :
    ListenerState × List Effect × Nat :=
  let probeTrace :=
    match probe with
    | Except.ok _ => []
    | Except.error _ => [Effect.log "[alert-operator] error determining device capacity"]
  let deviceCapacity := deviceCapacityOf probe
  let runningCapacity := s.capacity - s.runningTasks.length
  let hostCapacity := min runningCapacity deviceCapacity
  let adjustTrace :=
    if hostCapacity < runningCapacity then [Effect.log "[info] host capacity adjusted"] else []
  ({ s with lastKnownCapacity := hostCapacity },
   probeTrace ++ adjustTrace, hostCapacity)

/-- One claim as returned by `claimWork`: the fields of the JS claim
object that `runTask` reads.  `statusRunsLen` is
`claim.status.runs.length`; `capDevices` is
`Object.keys(task.payload.capabilities.devices)` when
`capabilities.devices` is present. -/
structure Claim where
  statusTaskId : String
  statusRunsLen : Nat
  runId : Nat
  taskCreated : Nat
  capDevices : Option (List String)
deriving Repr, DecidableEq

/-- `getTasks()`.  `probe` is the device-capacity probe result,
`exceedsThreshold` the disk-pressure predicate's answer, `claims` what
`claimWork` returned.  Runner launches are fire-and-forget
(`spawnRunTask` effects); their bodies are modelled by `runTask`. -/
def getTasks (s : ListenerState) (probe : Except String Nat)
    (exceedsThreshold : Bool) (claims : List Claim) :
    ListenerState × List Effect :=
  let a := availableCapacity s probe
  if a.2.2 = 0 then
    (a.1, a.2.1 ++ [Effect.debugLog "not calling claimWork because capacity is zero"])
  else
    let sweepTrace := [Effect.gcSweep (a.1.runningTasks.length == 0)]
    let diskTrace := [Effect.diskCheck a.2.2]
    if exceedsThreshold then
      (a.1, a.2.1 ++ sweepTrace ++ diskTrace ++
        [Effect.debugLog "not calling claimWork because not enough disk space"])
    else
      let claimTrace := [Effect.claimWork a.2.2]
      if claims.length ≠ 0 then
        (a.1, a.2.1 ++ sweepTrace ++ diskTrace ++ claimTrace ++
          [Effect.purgeCaches] ++
          claims.map (fun c => Effect.spawnRunTask c.statusTaskId c.runId))
      else
        (a.1, a.2.1 ++ sweepTrace ++ diskTrace ++ claimTrace)

/-- `shutdown()`: pause, zero the capacity, emit the final log events
and delegate to `this.host.shutdown()`. -/
def shutdown (s : ListenerState) : ListenerState × List Effect :=
  ({ s with paused := true, capacity := 0 },
   [Effect.log "shutdown", Effect.logEvent "instanceShutdown", Effect.log "exit",
    Effect.hostShutdown])

/-- `isIdle()` -/
def isIdle (s : ListenerState) : Bool :=
  s.runningTasks.length == 0

/-- The environment of one `runTask` call: whether the worker restricts
CPU, the outcome of each `deviceManager.getDevice` call (id or thrown
error), and whether `taskHandler.start()` resolves or rejects. -/
structure RunOracle where
  restrictCPU : Bool
  cpuDevice : Except String String
  getDevice : String → Except String String
  startResult : Except String Unit

/-- The device-acquisition loop of `runTask`: acquire each declared kind
in order, assigning into `runningState.devices` only on success, and
throw out of the loop on the first failing `getDevice`.  Returns the
devices assigned so far and whether the loop threw. -/
def acquireDevices (getDevice : String → Except String String) :
    List String → List (String × String) → List (String × String) × Bool
  | [], acc => (acc, false)
  | kind :: rest, acc =>
    match getDevice kind with
    | Except.ok i => acquireDevices getDevice rest (acc ++ [(kind, i)])
    | Except.error _ => (acc, true)

/-- The devices `runTask` has assigned into `runningState.devices` by
the time the try block either completes device acquisition or throws. -/
def runTaskDevices (c : Claim) (o : RunOracle) : List (String × String) :=
  let devs0 : List (String × String) :=
    if o.restrictCPU then
      match o.cpuDevice with
      | Except.ok i => [("cpu", i)]
      | Except.error _ => []
    else []
  match c.capDevices with
  | none => devs0
  | some kinds => (acquireDevices o.getDevice kinds devs0).1

/-- Whether the try block of `runTask` throws before the handler is
constructed (a failing `getDevice` for the cpu pin or a payload
device). -/
def runTaskSetupThrew (c : Claim) (o : RunOracle) : Bool :=
  if o.restrictCPU ∧ o.cpuDevice matches Except.error _ then true
  else
    match c.capDevices with
    | none => false
    | some kinds =>
      let devs0 : List (String × String) :=
        if o.restrictCPU then
          match o.cpuDevice with
          | Except.ok i => [("cpu", i)]
          | Except.error _ => []
        else []
      (acquireDevices o.getDevice kinds devs0).2

/-- The catch block of `runTask`: retire the running state (warning path
when it never made it into the registry) and log the task error. -/
def runTaskCatch (s : ListenerState) (runningState : RunningState) (fin : Nat) :
    ListenerState × List Effect :=
  let r := removeRunningTask s runningState fin
  (r.1, r.2 ++ [Effect.log "task error"])

/-- The effects `runTask` emits before the device stage: the `run task`
log line and, for a first claim, the `timeToFirstClaim` measurement. -/
def runTaskPre (c : Claim) (now : Nat) : List Effect :=
  Effect.log "run task" ::
    (if c.statusRunsLen = 0 then
      [Effect.measure "timeToFirstClaim" ((now : Int) - (c.taskCreated : Int))]
    else [])

/-- The `runningState` object of one `runTask` call, as of the moment the
try block completes device acquisition or throws out of it. -/
def runTaskState (c : Claim) (o : RunOracle) (now : Nat) : RunningState :=
  { startTime := now, devices := runTaskDevices c o, taskId := c.statusTaskId,
    runId := c.runId, handlerTaskId := c.statusTaskId, handlerRunId := c.runId }

/-- The lifecycle events emitted before `handler.start()` is awaited:
`taskQueue`, then `taskStart`, then the await itself. -/
def runTaskEvts (c : Claim) : List Effect :=
  [Effect.logEvent "taskQueue", Effect.logEvent "taskStart",
   Effect.startAttempt c.statusTaskId c.runId]

/-- `runTask(claim)`.  `now` is the clock at entry, `fin` the clock when
the retirement path runs.  Every path falls through to
`this.runtime.monitor.count('task.error')`, which in the source sits
after (not inside) the catch block. -/
def runTask (s : ListenerState) (c : Claim) (o : RunOracle) (now fin : Nat) :
    ListenerState × List Effect :=
  let rs1 := runTaskState c o now
  if runTaskSetupThrew c o then
    let r := runTaskCatch s rs1 fin
    (r.1, runTaskPre c now ++ r.2 ++ [Effect.count "task.error" 1])
  else
    let a := addRunningTask s rs1 now
    match o.startResult with
    | Except.ok _ =>
      let r := removeRunningTask a.1 rs1 fin
      (r.1, runTaskPre c now ++ a.2 ++ runTaskEvts c ++ [Effect.logEvent "taskFinish"] ++
        r.2 ++ [Effect.count "task.error" 1])
    | Except.error _ =>
      let r := runTaskCatch a.1 rs1 fin
      (r.1, runTaskPre c now ++ a.2 ++ runTaskEvts c ++ [Effect.logEvent "taskFinish"] ++
        r.2 ++ [Effect.count "task.error" 1])

/-- The cancellation exit path of a registry entry: `cancelTask` handles
the message (calling `handler.cancel` and releasing leases) and then,
when the cancelled `handler.start()` returns, the owning runner retires
the state through `removeRunningTask`.  Returns the combined trace. -/
def cancelThenRetire (s : ListenerState) (runId : Nat) (runs : List String)
    (taskId : String) (rs : RunningState) (fin : Nat) :
    Except String (List Effect) :=
  (cancelTask s runId runs taskId).map
    (fun p => p.2 ++ (removeRunningTask p.1 rs fin).2)

/-- The abort loop of the immediate-shutdown branch: for every entry of
the registry, call `handler.abort("worker-shutdown")`, log and swallow a
per-handler throw (`abortFails`), then release the entry's leases. -/
def abortPhase (abortFails : RunningState → Bool) :
    List RunningState → List Effect
  | [] => []
  | st :: rest =>
    (Effect.handlerAbort st.handlerTaskId st.handlerRunId "worker-shutdown" ::
      (if abortFails st then [Effect.debugLog "error aborting with worker-shutdown"] else []) ++
      cleanupRunningState (some st)) ++
    abortPhase abortFails rest

/-- The `while (!this.isIdle())` drain of the immediate-shutdown branch.
While the poll loop sleeps, the concurrently running task runners retire
their entries via `removeRunningTask`; `completions` is that interleaved
sequence of retirements (state and clock).  Returns `none` when the
schedule runs out before the registry drains — the loop would then wait
forever. -/
def drainLoop : List (RunningState × Nat) → ListenerState →
    Option (ListenerState × List Effect)
  | completions, s =>
    if isIdle s then some (s, [])
    else
      match completions with
      | [] => none
      | (rs, now) :: rest =>
        let r := removeRunningTask s rs now
        (drainLoop rest r.1).map (fun p => (p.1, r.2 ++ p.2))

/-- `taskPoll()`: one poll cycle — `getTasks`, report idle/working, then
act on `shouldExit()`.  `completions` is the retirement schedule
consumed by the immediate-shutdown drain. -/
def taskPoll (s : ListenerState) (probe : Except String Nat)
    (exceedsThreshold : Bool) (claims : List Claim) (shouldExit : String)
    (abortFails : RunningState → Bool)
    (completions : List (RunningState × Nat)) :
    Option (ListenerState × List Effect) :=
  let g := getTasks s probe exceedsThreshold claims
  let idleTrace := if isIdle g.1 then [Effect.onIdle] else [Effect.onWorking]
  if shouldExit = "immediate" then
    let spotTrace := [Effect.count "spotTermination" 1]
    let abortTrace := abortPhase abortFails g.1.runningTasks
    match drainLoop completions g.1 with
    | none => none
    | some d =>
      let f := shutdown d.1
      some (f.1, g.2 ++ idleTrace ++ spotTrace ++ abortTrace ++ d.2 ++ f.2)
  else if shouldExit = "graceful" then
    let s2 := { g.1 with capacity := 0 }
    if isIdle s2 then
      let f := shutdown s2
      some (f.1, g.2 ++ idleTrace ++ f.2)
    else some (s2, g.2 ++ idleTrace)
  else some (g.1, g.2 ++ idleTrace)

/-- How many leases with device id `i` are held across a list of
registry entries (counting multiplicity). -/
def registryDeviceCount (l : List RunningState) (i : String) : Nat :=
  match l with
  | [] => 0
  | st :: rest => (st.devices.map Prod.snd).count i + registryDeviceCount rest i

/-! ### Helper lemmas -/

theorem count_release_map (l : List (String × String)) (i : String) :
    (l.map (fun d => Effect.release d.2)).count (Effect.release i) =
      (l.map Prod.snd).count i := by
  induction l with
  | nil => rfl
  | cons d l ih => simp [List.count_cons, ih]

theorem cleanup_count_release (st : RunningState) (i : String) :
    (cleanupRunningState (some st)).count (Effect.release i) =
      (st.devices.map Prod.snd).count i := by
  simpa [cleanupRunningState] using count_release_map st.devices i

theorem removeRunningTask_count_release (s : ListenerState) (rs : RunningState)
    (now : Nat) (i : String) :
    ((removeRunningTask s rs now).2).count (Effect.release i) =
      (rs.devices.map Prod.snd).count i := by
  unfold removeRunningTask
  cases h : s.runningTasks.findIdx? (removeMatch rs) <;>
    simp [h, recordCapacity, List.count_cons, List.count_append, cleanup_count_release]

theorem runTaskCatch_count_release (s : ListenerState) (rs : RunningState)
    (fin : Nat) (i : String) :
    ((runTaskCatch s rs fin).2).count (Effect.release i) =
      (rs.devices.map Prod.snd).count i := by
  simp [runTaskCatch, List.count_append, removeRunningTask_count_release]

theorem logEvent_not_mem_recordCapacity (s : ListenerState) (now : Nat) (t : String) :
    Effect.logEvent t ∉ (recordCapacity s now).2 := by
  simp [recordCapacity]

theorem logEvent_not_mem_cleanup (st : Option RunningState) (t : String) :
    Effect.logEvent t ∉ cleanupRunningState st := by
  cases st <;> simp [cleanupRunningState]

theorem logEvent_not_mem_removeRunningTask (s : ListenerState) (rs : RunningState)
    (now : Nat) (t : String) :
    Effect.logEvent t ∉ (removeRunningTask s rs now).2 := by
  unfold removeRunningTask
  cases h : s.runningTasks.findIdx? (removeMatch rs) <;>
    simp [h, recordCapacity, cleanupRunningState]

theorem logEvent_not_mem_runTaskCatch (s : ListenerState) (rs : RunningState)
    (fin : Nat) (t : String) :
    Effect.logEvent t ∉ (runTaskCatch s rs fin).2 := by
  simp [runTaskCatch]
  exact fun h => logEvent_not_mem_removeRunningTask s rs fin t h

theorem logEvent_not_mem_runTaskPre (c : Claim) (now : Nat) (t : String) :
    Effect.logEvent t ∉ runTaskPre c now := by
  unfold runTaskPre
  split <;> simp

theorem cancelTask_eq_badRun (s : ListenerState) (runs : List String)
    (taskId : String) {runId : Nat} (hg : runs[runId]? = none) :
    cancelTask s runId runs taskId =
      Except.error "TypeError: cannot read reasonResolved of undefined" := by
  simp [cancelTask, hg]

theorem cancelTask_eq_ignored (s : ListenerState) (runs : List String)
    (taskId : String) {runId : Nat} {reason : String}
    (hg : runs[runId]? = some reason) (hr : ¬ reason = "canceled") :
    cancelTask s runId runs taskId = Except.ok (s, []) := by
  simp [cancelTask, hg, hr]

theorem cancelTask_eq_notFound (s : ListenerState) (runs : List String)
    (taskId : String) {runId : Nat}
    (hg : runs[runId]? = some "canceled")
    (hf : s.runningTasks.find? (cancelMatch taskId runId) = none) :
    cancelTask s runId runs taskId =
      Except.ok (s, [Effect.debugLog "task not found to cancel"]) := by
  simp [cancelTask, hg, hf]

theorem cancelTask_eq_found (s : ListenerState) (runs : List String)
    (taskId : String) (st : RunningState) {runId : Nat}
    (hg : runs[runId]? = some "canceled")
    (hf : s.runningTasks.find? (cancelMatch taskId runId) = some st) :
    cancelTask s runId runs taskId =
      Except.ok (s,
        Effect.log "cancelling task" ::
        Effect.handlerCancel taskId runId "canceled" ::
        st.devices.map (fun d => Effect.release d.2)) := by
  simp [cancelTask, hg, hf, cleanupRunningState]

/-! ### C1 -/

/-- C1: `availableCapacity` returns
`min(max(configuredCapacity - runningTasks.length, 0), deviceCapacity)`,
stores that value in `lastKnownCapacity` (touching nothing else), and
when the device-capacity probe throws it uses `deviceCapacity = 0`, logs
an `[alert-operator]` line and still returns normally. -/
theorem C1_availableCapacity_formula (s : ListenerState) (probe : Except String Nat) :
    (((availableCapacity s probe).2.2 : Int) =
      min (max ((s.capacity : Int) - (s.runningTasks.length : Int)) 0)
        ((deviceCapacityOf probe : Int))) ∧
    (availableCapacity s probe).1 =
      { s with lastKnownCapacity := (availableCapacity s probe).2.2 } ∧
    (∀ e, probe = Except.error e →
      deviceCapacityOf probe = 0 ∧
      Effect.log "[alert-operator] error determining device capacity" ∈
        (availableCapacity s probe).2.1) := by
  refine ⟨?_, ?_, ?_⟩
  · simp only [availableCapacity]
    push_cast
    omega
  · rfl
  · intro e he
    subst he
    simp [availableCapacity, deviceCapacityOf]

/-- Witness for C1 at a concrete input: capacity 5, three running tasks,
probe throwing; the result is `min(max(5-3,0),0) = 0` and the alert is
logged. -/
theorem C1_witness :
    deviceCapacityOf (Except.error "boom") = 0 ∧
    Effect.log "[alert-operator] error determining device capacity" ∈
      (availableCapacity
        { runningTasks := [⟨0, [], "a", 0, "a", 0⟩, ⟨0, [], "b", 0, "b", 0⟩,
                           ⟨0, [], "c", 0, "c", 0⟩],
          lastKnownCapacity := 9, totalRunTime := 0, lastTaskEvent := 0,
          capacity := 5, paused := false }
        (Except.error "boom")).2.1 :=
  (C1_availableCapacity_formula _ (Except.error "boom")).2.2 "boom" rfl

/-! ### C9 -/

/-- C9: when the passed-in state's (taskId, runId) is not in the
registry, `removeRunningTask` logs the warning and releases the
passed-in leases, and the listener state (registry, `totalRunTime`,
`lastKnownCapacity`, everything) is unchanged. -/
theorem C9_removeRunningTask_missing (s : ListenerState) (rs : RunningState) (now : Nat)
    (h : s.runningTasks.findIdx? (removeMatch rs) = none) :
    removeRunningTask s rs now =
      (s, Effect.log "[warning] running task removal error" ::
          rs.devices.map (fun d => Effect.release d.2)) := by
  simp [removeRunningTask, h, cleanupRunningState]

/-- Witness for C9: removing `("B", 0)` from a registry holding only
`("A", 0)` keeps the state intact and releases the lease `d9`. -/
theorem C9_witness :
    removeRunningTask
      { runningTasks := [⟨0, [], "A", 0, "A", 0⟩], lastKnownCapacity := 1,
        totalRunTime := 7, lastTaskEvent := 2, capacity := 3, paused := false }
      ⟨1, [("loop", "d9")], "B", 0, "B", 0⟩ 5 =
      ({ runningTasks := [⟨0, [], "A", 0, "A", 0⟩], lastKnownCapacity := 1,
         totalRunTime := 7, lastTaskEvent := 2, capacity := 3, paused := false },
       [Effect.log "[warning] running task removal error", Effect.release "d9"]) := by
  rw [C9_removeRunningTask_missing _ _ _ (by decide)]
  rfl

/-! ### C10 -/

/-- C10: `cancelTask` never mutates the listener state — in particular
the registry contents and size are unchanged — and the only `release`
effects it emits are for devices of the state matched by the handler
lookup. -/
theorem C10_cancelTask_frame (s : ListenerState) (runId : Nat) (runs : List String)
    (taskId : String) (p : ListenerState × List Effect)
    (h : cancelTask s runId runs taskId = Except.ok p) :
    p.1 = s ∧
    (∀ i, Effect.release i ∈ p.2 →
      ∃ st, s.runningTasks.find? (cancelMatch taskId runId) = some st ∧
        i ∈ st.devices.map Prod.snd) := by
  cases hg : runs[runId]? with
  | none => rw [cancelTask_eq_badRun s runs taskId hg] at h; exact absurd h (by simp)
  | some reason =>
    by_cases hr : reason = "canceled"
    · subst hr
      cases hf : s.runningTasks.find? (cancelMatch taskId runId) with
      | none =>
        rw [cancelTask_eq_notFound s runs taskId hg hf] at h
        injection h with h
        subst h
        exact ⟨rfl, by simp⟩
      | some st =>
        rw [cancelTask_eq_found s runs taskId st hg hf] at h
        injection h with h
        subst h
        refine ⟨rfl, fun i hi => ⟨st, by simp [hf], ?_⟩⟩
        simp only [List.mem_cons] at hi
        rcases hi with h1 | h1 | h1
        · exact absurd h1 (by simp)
        · exact absurd h1 (by simp)
        · rcases List.mem_map.mp h1 with ⟨d, hd, hde⟩
          cases hde
          exact List.mem_map.mpr ⟨d, hd, rfl⟩
    · rw [cancelTask_eq_ignored s runs taskId hg hr] at h
      injection h with h
      subst h
      exact ⟨rfl, by simp⟩

/-- Witness for C10: a matching cancel message against a one-entry
registry leaves the state untouched and releases only `d0`, a device of
the matched entry. -/
theorem C10_witness :
    ({ runningTasks := [⟨1, [("loop", "d0")], "X", 1, "X", 1⟩], lastKnownCapacity := 0,
       totalRunTime := 0, lastTaskEvent := 0, capacity := 2, paused := false } :
        ListenerState) =
      { runningTasks := [⟨1, [("loop", "d0")], "X", 1, "X", 1⟩], lastKnownCapacity := 0,
        totalRunTime := 0, lastTaskEvent := 0, capacity := 2, paused := false } ∧
    Effect.release "d0" ∈
      ([Effect.log "cancelling task", Effect.handlerCancel "X" 1 "canceled",
        Effect.release "d0"] : List Effect) :=
  ⟨(C10_cancelTask_frame
      { runningTasks := [⟨1, [("loop", "d0")], "X", 1, "X", 1⟩], lastKnownCapacity := 0,
        totalRunTime := 0, lastTaskEvent := 0, capacity := 2, paused := false }
      1 ["a", "canceled"] "X" _ rfl).1,
   by decide⟩

/-! ### C8 -/

/-- C8: `cancelTask` proceeds only when the referenced run's
`reasonResolved` is `"canceled"` (otherwise it returns with no effect);
with a matching reason it logs at debug and returns when the (taskId,
runId) pair is not in the registry, and otherwise calls
`handler.cancel(reason)` and then releases the matched state's device
leases. -/
theorem C8_cancelTask_behavior (s : ListenerState) (runId : Nat) (runs : List String)
    (taskId : String) (reason : String)
    (hr : runs[runId]? = some reason) :
    (reason ≠ "canceled" → cancelTask s runId runs taskId = Except.ok (s, [])) ∧
    (reason = "canceled" →
      (s.runningTasks.find? (cancelMatch taskId runId) = none →
        cancelTask s runId runs taskId =
          Except.ok (s, [Effect.debugLog "task not found to cancel"])) ∧
      (∀ st, s.runningTasks.find? (cancelMatch taskId runId) = some st →
        cancelTask s runId runs taskId =
          Except.ok (s,
            Effect.log "cancelling task" ::
            Effect.handlerCancel taskId runId "canceled" ::
            st.devices.map (fun d => Effect.release d.2)))) := by
  refine ⟨fun hne => ?_, fun he => ⟨fun hf => ?_, fun st hf => ?_⟩⟩
  · simp [cancelTask, hr, hne]
  · subst he
    simp [cancelTask, hr, hf]
  · subst he
    simp [cancelTask, hr, hf, cleanupRunningState]

/-- Witness for C8: for the message `runs = ["a", "canceled"]`,
`runId = 1`, on a registry holding the matching entry, `cancelTask`
cancels the handler and releases its lease `d0`. -/
theorem C8_witness :
    cancelTask
      { runningTasks := [⟨1, [("loop", "d0")], "X", 1, "X", 1⟩], lastKnownCapacity := 0,
        totalRunTime := 0, lastTaskEvent := 0, capacity := 2, paused := false }
      1 ["a", "canceled"] "X" =
      Except.ok
        ({ runningTasks := [⟨1, [("loop", "d0")], "X", 1, "X", 1⟩], lastKnownCapacity := 0,
           totalRunTime := 0, lastTaskEvent := 0, capacity := 2, paused := false },
         [Effect.log "cancelling task", Effect.handlerCancel "X" 1 "canceled",
          Effect.release "d0"]) :=
  ((C8_cancelTask_behavior _ 1 ["a", "canceled"] "X" "canceled" rfl).2 rfl).2
    ⟨1, [("loop", "d0")], "X", 1, "X", 1⟩ (by decide)

/-! ### C3 -/

/-- C3: whenever a `runTask` execution emits `taskStart`, the events
`taskQueue`, `taskStart`, the await of `handler.start()` and
`taskFinish` occur contiguously in that order in its trace — so
`taskFinish` is emitted whether `handler.start()` resolves or throws,
and `taskStart` comes after `taskQueue` and before the await. -/
theorem C3_runTask_lifecycle (s : ListenerState) (c : Claim) (o : RunOracle)
    (now fin : Nat)
    (h : Effect.logEvent "taskStart" ∈ (runTask s c o now fin).2) :
    List.IsInfix
      [Effect.logEvent "taskQueue", Effect.logEvent "taskStart",
       Effect.startAttempt c.statusTaskId c.runId, Effect.logEvent "taskFinish"]
      (runTask s c o now fin).2 := by
  unfold runTask at h ⊢
  by_cases hth : runTaskSetupThrew c o = true
  · rw [if_pos hth] at h
    simp only [List.mem_append, List.mem_singleton] at h
    rcases h with (h | h) | h
    · exact absurd h (logEvent_not_mem_runTaskPre c now _)
    · exact absurd h (logEvent_not_mem_runTaskCatch _ _ _ _)
    · exact absurd h (by simp)
  · rw [if_neg hth] at h ⊢
    cases hst : o.startResult with
    | ok u =>
      refine ⟨runTaskPre c now ++ (addRunningTask s (runTaskState c o now) now).2, ?_, ?_⟩
      · exact (removeRunningTask
          (addRunningTask s (runTaskState c o now) now).1 (runTaskState c o now) fin).2 ++
          [Effect.count "task.error" 1]
      · simp [runTaskEvts]
    | error e =>
      refine ⟨runTaskPre c now ++ (addRunningTask s (runTaskState c o now) now).2, ?_, ?_⟩
      · exact (runTaskCatch
          (addRunningTask s (runTaskState c o now) now).1 (runTaskState c o now) fin).2 ++
          [Effect.count "task.error" 1]
      · simp [runTaskEvts]

/-- Witness for C3: a concrete execution whose handler throws; the four
lifecycle events appear in order even though `start()` rejected. -/
theorem C3_witness :
    List.IsInfix
      [Effect.logEvent "taskQueue", Effect.logEvent "taskStart",
       Effect.startAttempt "A" 0, Effect.logEvent "taskFinish"]
      (runTask
        { runningTasks := [], lastKnownCapacity := 0, totalRunTime := 0,
          lastTaskEvent := 0, capacity := 2, paused := false }
        { statusTaskId := "A", statusRunsLen := 1, runId := 0, taskCreated := 3,
          capDevices := none }
        { restrictCPU := false, cpuDevice := Except.ok "c",
          getDevice := fun k => Except.ok k, startResult := Except.error "handler died" }
        5 9).2 :=
  C3_runTask_lifecycle
    { runningTasks := [], lastKnownCapacity := 0, totalRunTime := 0,
      lastTaskEvent := 0, capacity := 2, paused := false }
    { statusTaskId := "A", statusRunsLen := 1, runId := 0, taskCreated := 3,
      capDevices := none }
    { restrictCPU := false, cpuDevice := Except.ok "c",
      getDevice := fun k => Except.ok k, startResult := Except.error "handler died" }
    5 9 (by decide)

/-! ### C4 -/

/-- C4: `recordCapacity` runs immediately before the registry insertion
in `addRunningTask` and before the splice in a successful
`removeRunningTask`, so the emitted `capacity.idle`,
`capacity.runningTasks` and `capacity.total` counters describe the
listener state immediately prior to the mutation. -/
theorem C4_recordCapacity_pre_mutation (s : ListenerState) (rs : RunningState)
    (now : Nat) :
    ((addRunningTask s rs now).2 = (recordCapacity s now).2 ∧
     (addRunningTask s rs now).1.runningTasks = s.runningTasks ++ [rs] ∧
     Effect.count "capacity.idle" (s.lastKnownCapacity : Int) ∈
       (addRunningTask s rs now).2 ∧
     Effect.count "capacity.runningTasks" (s.runningTasks.length : Int) ∈
       (addRunningTask s rs now).2 ∧
     Effect.count "capacity.total"
         ((s.lastKnownCapacity : Int) + (s.runningTasks.length : Int)) ∈
       (addRunningTask s rs now).2) ∧
    (∀ i, s.runningTasks.findIdx? (removeMatch rs) = some i →
      (removeRunningTask s rs now).2 =
        (recordCapacity s now).2 ++ cleanupRunningState (some rs) ∧
      (removeRunningTask s rs now).1.runningTasks = s.runningTasks.eraseIdx i ∧
      Effect.count "capacity.idle" (s.lastKnownCapacity : Int) ∈
        (removeRunningTask s rs now).2 ∧
      Effect.count "capacity.runningTasks" (s.runningTasks.length : Int) ∈
        (removeRunningTask s rs now).2 ∧
      Effect.count "capacity.total"
          ((s.lastKnownCapacity : Int) + (s.runningTasks.length : Int)) ∈
        (removeRunningTask s rs now).2) := by
  refine ⟨⟨rfl, rfl, ?_, ?_, ?_⟩, fun i hi => ?_⟩
  · simp [addRunningTask, recordCapacity]
  · simp [addRunningTask, recordCapacity]
  · simp [addRunningTask, recordCapacity]
  · unfold removeRunningTask
    rw [hi]
    refine ⟨rfl, rfl, ?_, ?_, ?_⟩ <;> simp [recordCapacity]

/-- Witness for C4 at a concrete input: a registry holding `("A", 0)`;
removing it emits counters describing the one-entry pre-state and then
erases index 0. -/
theorem C4_witness :
    (removeRunningTask
      { runningTasks := [⟨2, [("loop", "d0")], "A", 0, "A", 0⟩], lastKnownCapacity := 3,
        totalRunTime := 0, lastTaskEvent := 1, capacity := 4, paused := false }
      ⟨2, [("loop", "d0")], "A", 0, "A", 0⟩ 6).2 =
      (recordCapacity
        { runningTasks := [⟨2, [("loop", "d0")], "A", 0, "A", 0⟩], lastKnownCapacity := 3,
          totalRunTime := 0, lastTaskEvent := 1, capacity := 4, paused := false } 6).2 ++
        cleanupRunningState (some ⟨2, [("loop", "d0")], "A", 0, "A", 0⟩) :=
  ((C4_recordCapacity_pre_mutation
      { runningTasks := [⟨2, [("loop", "d0")], "A", 0, "A", 0⟩], lastKnownCapacity := 3,
        totalRunTime := 0, lastTaskEvent := 1, capacity := 4, paused := false }
      ⟨2, [("loop", "d0")], "A", 0, "A", 0⟩ 6).2 0 (by decide)).1

/-! ### C5 -/

/-- C5 (documents the code bug): in an execution of `runTask` in which
every device acquisition succeeds and `handler.start()` resolves, the
trace still contains a `task.error` count increment — the
`monitor.count('task.error')` call sits after the catch block instead of
inside it, so it runs on every invocation. -/
theorem C5_task_error_counted_on_success :
    ((runTask
      { runningTasks := [], lastKnownCapacity := 0, totalRunTime := 0,
        lastTaskEvent := 0, capacity := 2, paused := false }
      { statusTaskId := "A", statusRunsLen := 0, runId := 0, taskCreated := 3,
        capDevices := some ["loop"] }
      { restrictCPU := false, cpuDevice := Except.ok "c",
        getDevice := fun k => Except.ok k, startResult := Except.ok () }
      5 9).2).count (Effect.count "task.error" 1) = 1 := by
  decide

/-! ### C6 -/

/-- C6 counterexample: a poll cycle whose admissible capacity is zero
(configured capacity 0, empty registry, healthy device probe) invokes
`gc.sweep` neither with `true` nor with `false` — `getTasks` returns
before the sweep when `availableCapacity === 0`. -/
theorem C6_counterexample :
    Effect.gcSweep true ∉
      (getTasks
        { runningTasks := [], lastKnownCapacity := 5, totalRunTime := 0,
          lastTaskEvent := 0, capacity := 0, paused := false }
        (Except.ok 4) false []).2 ∧
    Effect.gcSweep false ∉
      (getTasks
        { runningTasks := [], lastKnownCapacity := 5, totalRunTime := 0,
          lastTaskEvent := 0, capacity := 0, paused := false }
        (Except.ok 4) false []).2 := by
  decide

/-- C6 (amended): `gc.sweep` is invoked exactly on the poll cycles whose
admissible capacity is nonzero, and there with a full sweep (`true`)
exactly when the registry is empty; on cycles with zero admissible
capacity the sweep is skipped entirely. -/
theorem C6_gcSweep_gated (s : ListenerState) (probe : Except String Nat)
    (exceedsThreshold : Bool) (claims : List Claim) :
    ((availableCapacity s probe).2.2 ≠ 0 →
      Effect.gcSweep (s.runningTasks.length == 0) ∈
        (getTasks s probe exceedsThreshold claims).2) ∧
    ((availableCapacity s probe).2.2 = 0 →
      ∀ b, Effect.gcSweep b ∉ (getTasks s probe exceedsThreshold claims).2) := by
  constructor
  · intro hne
    have hrt : (availableCapacity s probe).1.runningTasks = s.runningTasks := rfl
    unfold getTasks
    rw [if_neg hne]
    by_cases hex : exceedsThreshold = true
    · rw [if_pos hex]
      simp [hrt]
    · rw [if_neg hex]
      by_cases hcl : claims.length ≠ 0
      · rw [if_pos hcl]
        simp [hrt]
      · rw [if_neg hcl]
        simp [hrt]
  · intro hz b
    unfold getTasks
    rw [if_pos hz]
    unfold availableCapacity
    cases probe <;> simp

/-- Witness for C6 at concrete inputs: with capacity 3 and one running
task the light sweep (`false`, registry nonempty) happens; with
capacity 0 no sweep happens. -/
theorem C6_witness :
    Effect.gcSweep
        (([(⟨0, [], "A", 0, "A", 0⟩ : RunningState)].length == 0)) ∈
      (getTasks
        { runningTasks := [⟨0, [], "A", 0, "A", 0⟩], lastKnownCapacity := 0,
          totalRunTime := 0, lastTaskEvent := 0, capacity := 3, paused := false }
        (Except.ok 4) false []).2 ∧
    Effect.gcSweep true ∉
      (getTasks
        { runningTasks := [], lastKnownCapacity := 5, totalRunTime := 0,
          lastTaskEvent := 0, capacity := 0, paused := false }
        (Except.ok 4) true []).2 :=
  ⟨(C6_gcSweep_gated
      { runningTasks := [⟨0, [], "A", 0, "A", 0⟩], lastKnownCapacity := 0,
        totalRunTime := 0, lastTaskEvent := 0, capacity := 3, paused := false }
      (Except.ok 4) false []).1 (by decide),
   (C6_gcSweep_gated
      { runningTasks := [], lastKnownCapacity := 5, totalRunTime := 0,
        lastTaskEvent := 0, capacity := 0, paused := false }
      (Except.ok 4) true []).2 (by decide) true⟩

/-! ### C7 -/

theorem getTasks_runningTasks (s : ListenerState) (probe : Except String Nat)
    (exceedsThreshold : Bool) (claims : List Claim) :
    (getTasks s probe exceedsThreshold claims).1.runningTasks = s.runningTasks := by
  unfold getTasks
  by_cases h0 : (availableCapacity s probe).2.2 = 0
  · rw [if_pos h0]; rfl
  · rw [if_neg h0]
    by_cases hex : exceedsThreshold = true
    · rw [if_pos hex]; rfl
    · rw [if_neg hex]
      by_cases hcl : claims.length ≠ 0
      · rw [if_pos hcl]; rfl
      · rw [if_neg hcl]; rfl

theorem abortPhase_mem_abort (abortFails : RunningState → Bool)
    (l : List RunningState) (st : RunningState) (h : st ∈ l) :
    Effect.handlerAbort st.handlerTaskId st.handlerRunId "worker-shutdown" ∈
      abortPhase abortFails l := by
  induction l with
  | nil => cases h
  | cons a l ih =>
    rcases List.mem_cons.mp h with h1 | h1
    · subst h1
      simp [abortPhase]
    · simp only [abortPhase, List.mem_append]
      exact Or.inr (ih h1)

theorem abortPhase_mem_debug (abortFails : RunningState → Bool)
    (l : List RunningState) (st : RunningState) (h : st ∈ l)
    (hf : abortFails st = true) :
    Effect.debugLog "error aborting with worker-shutdown" ∈ abortPhase abortFails l := by
  induction l with
  | nil => cases h
  | cons a l ih =>
    rcases List.mem_cons.mp h with h1 | h1
    · subst h1
      simp [abortPhase, hf]
    · simp only [abortPhase, List.mem_append]
      exact Or.inr (ih h1)

theorem abortPhase_mem_release (abortFails : RunningState → Bool)
    (l : List RunningState) (st : RunningState) (h : st ∈ l)
    (d : String × String) (hd : d ∈ st.devices) :
    Effect.release d.2 ∈ abortPhase abortFails l := by
  induction l with
  | nil => cases h
  | cons a l ih =>
    rcases List.mem_cons.mp h with h1 | h1
    · subst h1
      have hcl : Effect.release d.2 ∈ cleanupRunningState (some st) := by
        simp only [cleanupRunningState]
        exact List.mem_map.mpr ⟨d, hd, rfl⟩
      simp only [abortPhase, List.mem_append, List.mem_cons]
      tauto
    · simp only [abortPhase, List.mem_append]
      exact Or.inr (ih h1)

theorem drainLoop_empty (completions : List (RunningState × Nat)) :
    ∀ (s : ListenerState) (p : ListenerState × List Effect),
      drainLoop completions s = some p → p.1.runningTasks = [] := by
  induction completions with
  | nil =>
    intro s p h
    rw [drainLoop] at h
    by_cases hi : isIdle s = true
    · rw [if_pos hi] at h
      cases h
      simpa [isIdle] using hi
    · rw [if_neg hi] at h
      exact absurd h (by simp)
  | cons c rest ih =>
    intro s p h
    obtain ⟨rs, tnow⟩ := c
    rw [drainLoop] at h
    by_cases hi : isIdle s = true
    · rw [if_pos hi] at h
      cases h
      simpa [isIdle] using hi
    · rw [if_neg hi] at h
      simp only [Option.map_eq_some'] at h
      obtain ⟨q, hq, hpq⟩ := h
      subst hpq
      exact ih _ q hq

/-- C7: when `shouldExit()` is `"immediate"` and the poll cycle
completes, the trace counts `spotTermination`, contains an
`abort("worker-shutdown")` call for every registry entry — with a
per-handler throw merely logged at debug — releases every such entry's
leases, and ends with the `shutdown()` effects applied to a state whose
registry had already drained to empty (the 100 ms wait), so
`host.shutdown()` is the final effect and comes only after the registry
is empty. -/
theorem C7_taskPoll_immediate (s : ListenerState) (probe : Except String Nat)
    (exceedsThreshold : Bool) (claims : List Claim)
    (abortFails : RunningState → Bool) (completions : List (RunningState × Nat))
    (p : ListenerState × List Effect)
    (h : taskPoll s probe exceedsThreshold claims "immediate" abortFails completions =
      some p) :
    Effect.count "spotTermination" 1 ∈ p.2 ∧
    (∀ st ∈ s.runningTasks,
      Effect.handlerAbort st.handlerTaskId st.handlerRunId "worker-shutdown" ∈ p.2 ∧
      (abortFails st = true →
        Effect.debugLog "error aborting with worker-shutdown" ∈ p.2) ∧
      (∀ d ∈ st.devices, Effect.release d.2 ∈ p.2)) ∧
    (∃ tPre s2, s2.runningTasks = [] ∧ p.2 = tPre ++ (shutdown s2).2 ∧
      p.1 = (shutdown s2).1) := by
  unfold taskPoll at h
  rw [if_pos rfl] at h
  cases hd : drainLoop completions (getTasks s probe exceedsThreshold claims).1 with
  | none => rw [hd] at h; exact absurd h (by simp)
  | some d =>
    rw [hd] at h
    cases h
    have hreg := getTasks_runningTasks s probe exceedsThreshold claims
    refine ⟨by simp, fun st hst => ?_, ?_⟩
    · rw [← hreg] at hst
      refine ⟨?_, fun hfa => ?_, fun dev hdev => ?_⟩
      · simp only [List.mem_append]
        exact Or.inl (Or.inl (Or.inr (abortPhase_mem_abort abortFails _ st hst)))
      · simp only [List.mem_append]
        exact Or.inl (Or.inl (Or.inr (abortPhase_mem_debug abortFails _ st hst hfa)))
      · simp only [List.mem_append]
        exact Or.inl (Or.inl (Or.inr (abortPhase_mem_release abortFails _ st hst dev hdev)))
    · refine ⟨(getTasks s probe exceedsThreshold claims).2 ++
        ((if isIdle (getTasks s probe exceedsThreshold claims).1 = true then [Effect.onIdle]
          else [Effect.onWorking]) ++
          Effect.count "spotTermination" 1 ::
            (abortPhase abortFails
              (getTasks s probe exceedsThreshold claims).1.runningTasks ++ d.2)),
        d.1, drainLoop_empty completions _ d hd, by simp, rfl⟩

/-- Witness for C7 at a concrete input: one running task `("X", 1)`
holding lease `d0`, a retirement schedule that drains it; the immediate
branch counts `spotTermination`. -/
theorem C7_witness :
    Effect.count "spotTermination" 1 ∈
      ((taskPoll
        { runningTasks := [⟨1, [("loop", "d0")], "X", 1, "X", 1⟩], lastKnownCapacity := 0,
          totalRunTime := 0, lastTaskEvent := 0, capacity := 2, paused := false }
        (Except.ok 0) false [] "immediate" (fun _ => false)
        [(⟨1, [("loop", "d0")], "X", 1, "X", 1⟩, 9)]).getD
          ({ runningTasks := [], lastKnownCapacity := 0, totalRunTime := 0,
             lastTaskEvent := 0, capacity := 0, paused := false }, [])).2 :=
  (C7_taskPoll_immediate
    { runningTasks := [⟨1, [("loop", "d0")], "X", 1, "X", 1⟩], lastKnownCapacity := 0,
      totalRunTime := 0, lastTaskEvent := 0, capacity := 2, paused := false }
    (Except.ok 0) false [] (fun _ => false)
    [(⟨1, [("loop", "d0")], "X", 1, "X", 1⟩, 9)]
    ((taskPoll
      { runningTasks := [⟨1, [("loop", "d0")], "X", 1, "X", 1⟩], lastKnownCapacity := 0,
        totalRunTime := 0, lastTaskEvent := 0, capacity := 2, paused := false }
      (Except.ok 0) false [] "immediate" (fun _ => false)
      [(⟨1, [("loop", "d0")], "X", 1, "X", 1⟩, 9)]).getD
        ({ runningTasks := [], lastKnownCapacity := 0, totalRunTime := 0,
           lastTaskEvent := 0, capacity := 0, paused := false }, []))
    (by rfl)).1

/-! ### C2 -/

theorem count_release_runTaskPre (c : Claim) (now : Nat) (i : String) :
    (runTaskPre c now).count (Effect.release i) = 0 := by
  unfold runTaskPre
  split <;> simp

theorem count_release_recordCapacity (s : ListenerState) (now : Nat) (i : String) :
    ((recordCapacity s now).2).count (Effect.release i) = 0 := by
  simp [recordCapacity]

theorem count_release_runTaskEvts (c : Claim) (i : String) :
    (runTaskEvts c).count (Effect.release i) = 0 := by
  simp [runTaskEvts]

/-- Every exit path of `runTask` alone releases each acquired device
exactly once: its trace contains exactly as many `release` effects for a
device id as the acquired device map holds entries with that id. -/
theorem runTask_count_release (s : ListenerState) (c : Claim) (o : RunOracle)
    (now fin : Nat) (i : String) :
    ((runTask s c o now fin).2).count (Effect.release i) =
      ((runTaskDevices c o).map Prod.snd).count i := by
  unfold runTask
  by_cases hth : runTaskSetupThrew c o = true
  · rw [if_pos hth]
    simp [List.count_append, runTaskCatch_count_release, count_release_runTaskPre,
      runTaskState]
  · rw [if_neg hth]
    cases o.startResult with
    | ok u =>
      simp [List.count_append, removeRunningTask_count_release, count_release_runTaskPre,
        count_release_recordCapacity, count_release_runTaskEvts, addRunningTask,
        runTaskState]
    | error e =>
      simp [List.count_append, runTaskCatch_count_release, count_release_runTaskPre,
        count_release_recordCapacity, count_release_runTaskEvts, addRunningTask,
        runTaskState]

/-- On the cancellation exit path each lease is released twice: once by
`cancelTask`'s cleanup and once again when the runner retires the state
through `removeRunningTask` — for any registry in which the handler
lookup matches the entry `st`. -/
theorem cancelThenRetire_count_release (s : ListenerState) (runId : Nat)
    (runs : List String) (taskId : String) (st : RunningState) (fin : Nat)
    (i : String)
    (hg : runs[runId]? = some "canceled")
    (hf : s.runningTasks.find? (cancelMatch taskId runId) = some st) :
    (cancelThenRetire s runId runs taskId st fin).map
        (fun tr => tr.count (Effect.release i)) =
      Except.ok (2 * (st.devices.map Prod.snd).count i) := by
  unfold cancelThenRetire
  rw [cancelTask_eq_found _ _ _ st hg hf]
  simp only [Except.map, List.count_append, List.count_cons]
  rw [removeRunningTask_count_release, count_release_map]
  simp
  omega

theorem count_release_availableCapacity (s : ListenerState)
    (probe : Except String Nat) (i : String) :
    ((availableCapacity s probe).2.1).count (Effect.release i) = 0 := by
  unfold availableCapacity
  cases probe <;> simp [List.count_append] <;> split <;> simp

theorem count_release_getTasks (s : ListenerState) (probe : Except String Nat)
    (exceedsThreshold : Bool) (claims : List Claim) (i : String) :
    ((getTasks s probe exceedsThreshold claims).2).count (Effect.release i) = 0 := by
  unfold getTasks
  by_cases h0 : (availableCapacity s probe).2.2 = 0
  · rw [if_pos h0]
    simp [List.count_append, count_release_availableCapacity]
  · rw [if_neg h0]
    by_cases hex : exceedsThreshold = true
    · rw [if_pos hex]
      simp [List.count_append, count_release_availableCapacity]
    · rw [if_neg hex]
      by_cases hcl : claims.length ≠ 0
      · rw [if_pos hcl]
        simp [List.count_append, count_release_availableCapacity,
          List.count_eq_zero, List.mem_map]
      · rw [if_neg hcl]
        simp [List.count_append, count_release_availableCapacity]

/-- The abort loop of the immediate-shutdown branch releases each
registry entry's leases exactly once. -/
theorem abortPhase_count_release (abortFails : RunningState → Bool)
    (l : List RunningState) (i : String) :
    (abortPhase abortFails l).count (Effect.release i) =
      registryDeviceCount l i := by
  induction l with
  | nil => rfl
  | cons st rest ih =>
    by_cases hfa : abortFails st = true <;>
      simp [abortPhase, hfa, List.count_append, List.count_cons,
        cleanup_count_release, ih, registryDeviceCount]

/-- The canonical drain of the immediate-shutdown branch: each runner
retires its own entry once.  The drain succeeds and its trace releases
each entry's leases exactly once more. -/
theorem drainLoop_canonical (fin : Nat) (i : String) :
    ∀ (l : List RunningState) (s : ListenerState), s.runningTasks = l →
      ∃ p, drainLoop (l.map (fun st => (st, fin))) s = some p ∧
        p.2.count (Effect.release i) = registryDeviceCount l i := by
  intro l
  induction l with
  | nil =>
    intro s hs
    refine ⟨(s, []), ?_, rfl⟩
    rw [List.map_nil, drainLoop, if_pos (by simp [isIdle, hs])]
  | cons st rest ih =>
    intro s hs
    have hni : ¬ isIdle s = true := by simp [isIdle, hs]
    have hidx : s.runningTasks.findIdx? (removeMatch st) = some 0 := by
      rw [hs]
      simp [List.findIdx?_cons, removeMatch]
    have h1 : (removeRunningTask s st fin).1.runningTasks = rest := by
      unfold removeRunningTask
      rw [hidx]
      simp [recordCapacity, hs]
    obtain ⟨p, hp, hc⟩ := ih (removeRunningTask s st fin).1 h1
    refine ⟨(p.1, (removeRunningTask s st fin).2 ++ p.2), ?_, ?_⟩
    · rw [List.map_cons, drainLoop, if_neg hni]
      simp only [hp, Option.map_some']
    · simp [List.count_append, removeRunningTask_count_release, hc,
        registryDeviceCount]

/-- The shutdown-abort exit path: under the canonical drain schedule the
whole immediate-shutdown poll cycle releases each registry entry's
leases exactly twice — once in the abort loop, once at drain-time
retirement. -/
theorem taskPoll_immediate_count_release (s : ListenerState)
    (probe : Except String Nat) (exceedsThreshold : Bool) (claims : List Claim)
    (abortFails : RunningState → Bool) (fin : Nat) (i : String) :
    (taskPoll s probe exceedsThreshold claims "immediate" abortFails
        (s.runningTasks.map (fun st => (st, fin)))).map
      (fun p => p.2.count (Effect.release i)) =
      some (2 * registryDeviceCount s.runningTasks i) := by
  obtain ⟨p, hp, hc⟩ := drainLoop_canonical fin i s.runningTasks
    (getTasks s probe exceedsThreshold claims).1
    (getTasks_runningTasks s probe exceedsThreshold claims)
  unfold taskPoll
  rw [if_pos rfl, hp]
  simp only [Option.map_some']
  by_cases hidle : isIdle (getTasks s probe exceedsThreshold claims).1 = true <;>
    simp [hidle, List.count_append, List.count_cons, count_release_getTasks,
      abortPhase_count_release, getTasks_runningTasks, hc, shutdown] <;>
    omega

/-- C2 counterexample: for the registry entry `("X", 1)` holding the
single lease `d0`, a matching cancellation followed by the runner's
retirement calls `release()` on `d0` twice — not exactly once as the
claim states for the cancellation exit path. -/
theorem C2_counterexample :
    (cancelThenRetire
      { runningTasks := [⟨1, [("loop", "d0")], "X", 1, "X", 1⟩], lastKnownCapacity := 0,
        totalRunTime := 0, lastTaskEvent := 0, capacity := 2, paused := false }
      1 ["a", "canceled"] "X" ⟨1, [("loop", "d0")], "X", 1, "X", 1⟩ 7).map
        (fun tr => tr.count (Effect.release "d0")) = Except.ok 2 := by
  rfl

/-- C2 (amended): for every RunningState ever added, each leased
device's `release()` is called at least once — but not always exactly
once — by the time the state leaves the registry: exactly once per
acquired lease on the exit paths driven by `runTask` alone (normal
completion, handler failure, setup errors); exactly twice on the
cancellation path, where `cancelTask`'s cleanup releases the leases and
the runner's retirement releases them again; and exactly twice on the
shutdown-abort path, where the abort loop's cleanup releases them and
the drain-time retirement releases them again. -/
theorem C2_release_at_least_once (s : ListenerState) (c : Claim) (o : RunOracle)
    (now fin : Nat) (i : String) :
    (((runTask s c o now fin).2).count (Effect.release i) =
      ((runTaskDevices c o).map Prod.snd).count i) ∧
    (∀ (s2 : ListenerState) (runId : Nat) (runs : List String) (taskId : String)
      (st : RunningState) (fin2 : Nat),
      runs[runId]? = some "canceled" →
      s2.runningTasks.find? (cancelMatch taskId runId) = some st →
      (cancelThenRetire s2 runId runs taskId st fin2).map
          (fun tr => tr.count (Effect.release i)) =
        Except.ok (2 * (st.devices.map Prod.snd).count i)) ∧
    (∀ (s3 : ListenerState) (probe : Except String Nat) (exceedsThreshold : Bool)
      (claims : List Claim) (abortFails : RunningState → Bool) (fin3 : Nat),
      (taskPoll s3 probe exceedsThreshold claims "immediate" abortFails
          (s3.runningTasks.map (fun st => (st, fin3)))).map
        (fun p => p.2.count (Effect.release i)) =
        some (2 * registryDeviceCount s3.runningTasks i)) :=
  ⟨runTask_count_release s c o now fin i,
   fun s2 runId runs taskId st fin2 hg hf =>
     cancelThenRetire_count_release s2 runId runs taskId st fin2 i hg hf,
   fun s3 probe exceedsThreshold claims abortFails fin3 =>
     taskPoll_immediate_count_release s3 probe exceedsThreshold claims abortFails fin3 i⟩

/-- Witness for C2 at a concrete input: a two-entry registry in which
the cancellation matches the second entry `("Y", 0)` holding lease `g1`;
the cancel-then-retire trace releases `g1` twice. -/
theorem C2_witness :
    (cancelThenRetire
      { runningTasks := [⟨3, [], "Z", 9, "Z", 9⟩, ⟨2, [("gpu", "g1")], "Y", 0, "Y", 0⟩],
        lastKnownCapacity := 1, totalRunTime := 0, lastTaskEvent := 0, capacity := 2,
        paused := false }
      0 ["canceled"] "Y" ⟨2, [("gpu", "g1")], "Y", 0, "Y", 0⟩ 5).map
        (fun tr => tr.count (Effect.release "g1")) =
      Except.ok
        (2 * ((([("gpu", "g1")] : List (String × String))).map Prod.snd).count "g1") :=
  (C2_release_at_least_once
    { runningTasks := [], lastKnownCapacity := 0, totalRunTime := 0,
      lastTaskEvent := 0, capacity := 0, paused := false }
    { statusTaskId := "Y", statusRunsLen := 0, runId := 0, taskCreated := 0,
      capDevices := none }
    { restrictCPU := false, cpuDevice := Except.ok "c",
      getDevice := fun k => Except.ok k, startResult := Except.ok () }
    0 0 "g1").2.1
    { runningTasks := [⟨3, [], "Z", 9, "Z", 9⟩, ⟨2, [("gpu", "g1")], "Y", 0, "Y", 0⟩],
      lastKnownCapacity := 1, totalRunTime := 0, lastTaskEvent := 0, capacity := 2,
      paused := false }
    0 ["canceled"] "Y" ⟨2, [("gpu", "g1")], "Y", 0, "Y", 0⟩ 5 (by rfl) (by rfl)
